import Mathlib

/-!
# BunkerM frontend — verification of spec claims

Shallow embedding of the BunkerM frontend's helper logic (service modules,
dashboard helpers, and the Express auth-admin API) together with proofs that
settle the spec's claims about them.

JavaScript numbers are modelled as exact rationals (`ℚ`) where the code does
arithmetic, parsed epoch times as `Int`, and JavaScript strings as `List Char`
(so that all definitions evaluate inside the kernel).  JavaScript truthiness
on strings is modelled explicitly (`none`/empty ↦ falsy).

The file has two parts: first the definitions embedding the source, then the
theorems settling the claims.
-/

namespace BunkerM

/-! ## Definitions: shared JS primitives -/

/-- JavaScript strings, as lists of characters. -/
abbrev JsStr := List Char

/-- `String.prototype.trim()`: strip leading and trailing whitespace. -/
def jsTrim (s : JsStr) : JsStr :=
  ((s.dropWhile Char.isWhitespace).reverse.dropWhile Char.isWhitespace).reverse

/-- `Math.round(x)` in JavaScript: round half toward positive infinity. -/
def jsRound (q : ℚ) : ℤ := ⌊q + 1/2⌋

/-- `s.split('\n')` accumulator: JS `split` keeps empty segments. -/
def splitNlAux : JsStr → JsStr → List JsStr
  | acc, [] => [acc.reverse]
  | acc, c :: rest =>
    if c = '\n' then acc.reverse :: splitNlAux [] rest
    else splitNlAux (c :: acc) rest

/-- `s.split('\n')`. -/
def jsSplitNewline (s : JsStr) : List JsStr := splitNlAux [] s

/-! ## Definitions: `calculateTrend` (DefaultDashboard.vue) -/

/-- `calculateTrend` from `DefaultDashboard.vue`:
`if (previous === 0) return 0; return Math.round(((current - previous) / previous) * 100)`. -/
def calculateTrend (previous current : ℚ) : ℤ :=
  if previous = 0 then 0 else jsRound ((current - previous) / previous * 100)

/-! ## Definitions: `validateClientData` (clientService.js) -/

/-- A username character accepted by `clientService.validateClientData`'s
regex `[^a-zA-Z0-9_-]` (a character is *invalid* iff it is none of these). -/
def validUsernameChar (c : Char) : Bool :=
  c.isAlpha || c.isDigit || c == '_' || c == '-'

/-- Input object of `validateClientData`; JS fields may be absent (`none`). -/
structure ClientData where
  username : Option JsStr
  password : Option JsStr
  deriving Repr, DecidableEq

/-- Result object `{ isValid, errors }` of `validateClientData`. -/
structure ValidationResult where
  isValid : Bool
  errors : List String
  deriving Repr, DecidableEq

/-- Condition of `if (!clientData.username || clientData.username.trim() === '')`. -/
def usernameRequiredCond (d : ClientData) : Bool :=
  match d.username with
  | none => true
  | some s => s.isEmpty || (jsTrim s).isEmpty

/-- Condition of `if (clientData.username && clientData.username.length < 3)`. -/
def usernameLengthCond (d : ClientData) : Bool :=
  match d.username with
  | none => false
  | some s => !s.isEmpty && s.length < 3

/-- Condition of `if (!clientData.password || clientData.password.length < 6)`. -/
def passwordCond (d : ClientData) : Bool :=
  match d.password with
  | none => true
  | some s => s.isEmpty || s.length < 6

/-- Condition of `if (clientData.username && invalidChars.test(clientData.username))`. -/
def usernameCharsCond (d : ClientData) : Bool :=
  match d.username with
  | none => false
  | some s => !s.isEmpty && s.any (fun c => !validUsernameChar c)

/-- `clientService.validateClientData`: the four `errors.push` sites in source
order, then `{ isValid: errors.length === 0, errors }`. -/
def validateClientData (d : ClientData) : ValidationResult :=
  let errs : List String :=
    (if usernameRequiredCond d then ["Username is required"] else []) ++
    (if usernameLengthCond d then ["Username must be at least 3 characters long"] else []) ++
    (if passwordCond d then ["Password must be at least 6 characters long"] else []) ++
    (if usernameCharsCond d then
      ["Username can only contain letters, numbers, underscores, and hyphens"] else [])
  { isValid := errs.isEmpty, errors := errs }

/-! ## Definitions: `formatBytes` (UniqueVisitor.vue) -/

/-- `toFixed(2)` followed by `parseFloat`, idealised over `ℚ`: the value
rounded to two decimal places. -/
def jsToFixed2 (q : ℚ) : ℚ := (jsRound (q * 100) : ℚ) / 100

/-- The unit-suffix table of `formatBytes`. -/
def byteSizes : List String := ["B", "KB", "MB", "GB", "TB"]

/-- Observable output of `formatBytes`: either the literal `'0 B'` or a
scaled value with a unit suffix. -/
inductive BytesDisplay
  | zero
  | scaled (value : ℚ) (unit : String)
  deriving Repr, DecidableEq

/-- `formatBytes` from `UniqueVisitor.vue`.  The index
`Math.floor(Math.log(bytes) / Math.log(1024))` is the base-1024 logarithm
floor, embedded exactly as `Nat.log 1024`; `sizes[i]` past the end of the
table is JavaScript `undefined`. -/
def formatBytes (bytes : ℕ) : BytesDisplay :=
  if bytes = 0 then .zero
  else
    let i := Nat.log 1024 bytes
    .scaled (jsToFixed2 ((bytes : ℚ) / 1024 ^ i)) (byteSizes.getD i "undefined")

/-! ## Definitions: `handleApiCall` (clientService.js) -/

/-- Fields of a caught exception that `handleApiCall` inspects:
`error.message`, `error.userMessage` (set nowhere in this repository) and
`error.response?.status`. -/
structure ApiError where
  message : String
  userMessage : Option String
  status : Option Nat
  deriving Repr, DecidableEq

/-- Outcome of the wrapped `apiCall()`: resolves with data or throws. -/
inductive ApiOutcome (α : Type) where
  | success (data : α)
  | failure (e : ApiError)

/-- `handleApiCall` from `clientService.js`: returns `response.data` on
success; on failure builds a user-facing message
(`error.userMessage || error.message`, overridden by a generic server
message for status 500 and an authentication message for 401/403) and
throws `new Error(userMessage)`. -/
def handleApiCall {α : Type} (operation : String) (out : ApiOutcome α) : Except String α :=
  match out with
  | .success d => .ok d
  | .failure e =>
    -- let userMessage = error.userMessage || error.message
    let userMessage := match e.userMessage with
      | some s => if s.isEmpty then e.message else s
      | none => e.message
    let userMessage := if e.status = some 500 then
        "Server error during " ++ operation ++ ". Please check server logs."
      else if e.status = some 401 ∨ e.status = some 403 then
        "Authentication failed. Please check your login credentials."
      else userMessage
    .error userMessage

/-! ## Definitions: list-response parsing (clientService / roleService / mqtt.service) -/

/-- An element of an array-shaped list payload: a bare string or a DTO
object, abstracted by its name/username field. -/
inductive ListItem where
  | str (s : JsStr)
  | obj (name : JsStr)
  deriving Repr, DecidableEq

/-- Shape of a list field of a backend response (`response.data.clients`,
`response.data.roles`): absent/falsy (undefined, null, 0), a string, an
array, or some other truthy malformed value (number, plain object). -/
inductive ListPayload where
  | missing
  | str (s : JsStr)
  | arr (items : List ListItem)
  | malformed
  deriving Repr, DecidableEq

/-- A parsed entry `{ username: ... }` / `{ name: ... }`. -/
structure Entry where
  name : JsStr
  deriving Repr, DecidableEq

/-- JavaScript truthiness of a list payload. -/
def truthyPayload : ListPayload → Bool
  | .missing => false
  | .str s => !s.isEmpty
  | .arr _ => true
  | .malformed => true

/-- The entry produced for one element of an array payload: bare strings are
wrapped, objects pass through. -/
def itemEntry : ListItem → Entry
  | .str s => ⟨s⟩
  | .obj n => ⟨n⟩

/-- `clientService.getClients` response handling: falsy payload (including
the empty string) returns `[]`; a string is split on newlines, empty lines
dropped (`filter(Boolean)`), each line trimmed into `{ username }`; an array
is mapped element-wise; anything else returns `[]`. -/
def clientGetClients (clientsData : ListPayload) : List Entry :=
  match clientsData with
  | .missing => []
  | .str s =>
    if s.isEmpty then []
    else ((jsSplitNewline s).filter (fun l => !l.isEmpty)).map (fun l => ⟨jsTrim l⟩)
  | .arr items => items.map itemEntry
  | .malformed => []

/-- `roleService.getRoles`: `const roles = response.data.roles ||
response.data || []`, then array / string / fallback-empty handling
(lines are not trimmed here). -/
def roleGetRoles (rolesField dataValue : ListPayload) : List Entry :=
  let roles := if truthyPayload rolesField then rolesField
               else if truthyPayload dataValue then dataValue
               else .arr []
  match roles with
  | .arr items => items.map itemEntry
  | .str s => ((jsSplitNewline s).filter (fun l => !l.isEmpty)).map (fun l => ⟨l⟩)
  | _ => []

/-- `mqttService.getClients`:
`response.data.clients.split('\n').filter(Boolean).map(...)` — `.split` on a
non-string value throws a `TypeError`, modelled as `none`. -/
def mqttGetClients (clientsData : ListPayload) : Option (List Entry) :=
  match clientsData with
  | .str s => some (((jsSplitNewline s).filter (fun l => !l.isEmpty)).map (fun l => ⟨l⟩))
  | _ => none

/-! ## Definitions: byte-stats cutoff filters (DefaultDashboard.vue / UniqueVisitor.vue) -/

/-- `new Date(timestamp)` result: the parsed epoch time, or `none` for an
invalid date (whose comparisons are all false). -/
abbrev ParsedTime := Option Int

/-- `date >= cutoff`, where comparisons against an invalid date are false. -/
def timeAtOrAfter (cutoff : Int) : ParsedTime → Bool
  | some t => cutoff ≤ t
  | none => false

/-- `processedByteStats` from `DefaultDashboard.vue`: the `forEach` over
`timestamps` pushes entry `i` onto the three result arrays when its parsed
date is at or after the cutoff and `i` is in range of both byte arrays
(once either byte array is exhausted nothing more is pushed). -/
def processedByteStats (cutoff : Int) :
    List ParsedTime → List Int → List Int → List ParsedTime × List Int × List Int
  | t :: ts, b :: br, v :: bs =>
    let rest := processedByteStats cutoff ts br bs
    if timeAtOrAfter cutoff t then (t :: rest.1, b :: rest.2.1, v :: rest.2.2) else rest
  | _, _, _ => ([], [], [])

/-- `filterDataByTimeRange` from `UniqueVisitor.vue`: collect the indexes of
in-range timestamps, then map each index over the three arrays. -/
def filterDataByTimeRange (cutoff : Int) (ts : List ParsedTime) (br bs : List Int) :
    List ParsedTime × List Int × List Int :=
  let filteredIndexes := (List.range ts.length).filter
    (fun i => timeAtOrAfter cutoff (ts.getD i none))
  (filteredIndexes.map (fun i => ts.getD i none),
   filteredIndexes.map (fun i => br.getD i 0),
   filteredIndexes.map (fun i => bs.getD i 0))

/-- Specification-side definition, from the claim's words: the entries of
the zipped series whose timestamp is at or after the cutoff, in order. -/
def keptEntries (cutoff : Int) (ts : List ParsedTime) (br bs : List Int) :
    List (ParsedTime × Int × Int) :=
  (ts.zip (br.zip bs)).filter (fun e => timeAtOrAfter cutoff e.1)

/-- Specification-side filter result: the kept entries, unzipped. -/
def cutoffFilterSpec (cutoff : Int) (ts : List ParsedTime) (br bs : List Int) :
    List ParsedTime × List Int × List Int :=
  ((keptEntries cutoff ts br bs).map (fun e => e.1),
   (keptEntries cutoff ts br bs).map (fun e => e.2.1),
   (keptEntries cutoff ts br bs).map (fun e => e.2.2))

/-! ## Definitions: service request construction (nonce/timestamp)

Each service function is embedded as the HTTP request it issues: method,
path, and the query parameters it attaches.  Every one of these functions
returns `response.data` to its caller; the request shape is the part the
claims distinguish. -/

/-- An HTTP request as built by a service function. -/
structure ServiceRequest where
  method : String
  path : String
  params : List (String × String)
  deriving Repr, DecidableEq

/-- `getCurrentTimestamp = () => Math.floor(Date.now() / 1000)`. -/
def getCurrentTimestamp (nowMs : ℕ) : ℕ := nowMs / 1000

/-- The `{ nonce, timestamp }` query-parameter object. -/
def nonceTimestampParams (nonce : String) (nowMs : ℕ) : List (String × String) :=
  [("nonce", nonce), ("timestamp", toString (getCurrentTimestamp nowMs))]

/-- `clientService.getClients` request. -/
def clientService_getClients (nonce : String) (nowMs : ℕ) : ServiceRequest :=
  ⟨"GET", "/clients", nonceTimestampParams nonce nowMs⟩

/-- `clientService.getClient` request. -/
def clientService_getClient (username nonce : String) (nowMs : ℕ) : ServiceRequest :=
  ⟨"GET", "/clients/" ++ username, nonceTimestampParams nonce nowMs⟩

/-- `clientService.createClient` request. -/
def clientService_createClient (nonce : String) (nowMs : ℕ) : ServiceRequest :=
  ⟨"POST", "/clients", nonceTimestampParams nonce nowMs⟩

/-- `clientService.updateClient` request. -/
def clientService_updateClient (username nonce : String) (nowMs : ℕ) : ServiceRequest :=
  ⟨"PUT", "/clients/" ++ username, nonceTimestampParams nonce nowMs⟩

/-- `clientService.deleteClient` request. -/
def clientService_deleteClient (username nonce : String) (nowMs : ℕ) : ServiceRequest :=
  ⟨"DELETE", "/clients/" ++ username, nonceTimestampParams nonce nowMs⟩

/-- `clientService.enableClient` request. -/
def clientService_enableClient (username nonce : String) (nowMs : ℕ) : ServiceRequest :=
  ⟨"PUT", "/clients/" ++ username ++ "/enable", nonceTimestampParams nonce nowMs⟩

/-- `clientService.disableClient` request. -/
def clientService_disableClient (username nonce : String) (nowMs : ℕ) : ServiceRequest :=
  ⟨"PUT", "/clients/" ++ username ++ "/disable", nonceTimestampParams nonce nowMs⟩

/-- `clientService.addRoleToClient` request. -/
def clientService_addRoleToClient (username nonce : String) (nowMs : ℕ) : ServiceRequest :=
  ⟨"POST", "/clients/" ++ username ++ "/roles", nonceTimestampParams nonce nowMs⟩

/-- `clientService.removeRoleFromClient` request. -/
def clientService_removeRoleFromClient (username roleName nonce : String) (nowMs : ℕ) :
    ServiceRequest :=
  ⟨"DELETE", "/clients/" ++ username ++ "/roles/" ++ roleName,
   nonceTimestampParams nonce nowMs⟩

/-- `clientService.addClientToGroup` request. -/
def clientService_addClientToGroup (groupName nonce : String) (nowMs : ℕ) : ServiceRequest :=
  ⟨"POST", "/groups/" ++ groupName ++ "/clients", nonceTimestampParams nonce nowMs⟩

/-- `clientService.removeClientFromGroup` request. -/
def clientService_removeClientFromGroup (groupName username nonce : String) (nowMs : ℕ) :
    ServiceRequest :=
  ⟨"DELETE", "/groups/" ++ groupName ++ "/clients/" ++ username,
   nonceTimestampParams nonce nowMs⟩

/-- `clientService.testConnection` request. -/
def clientService_testConnection (nonce : String) (nowMs : ℕ) : ServiceRequest :=
  ⟨"GET", "/test-mosquitto", nonceTimestampParams nonce nowMs⟩

/-- `roleService.getRoles` request — `api.get('/roles')`, no params. -/
def roleService_getRoles : ServiceRequest := ⟨"GET", "/roles", []⟩

/-- `roleService.getRole` request — no params. -/
def roleService_getRole (name : String) : ServiceRequest := ⟨"GET", "/roles/" ++ name, []⟩

/-- `roleService.createRole` request — `api.post('/roles', { name })`, no
params. -/
def roleService_createRole (name : String) : ServiceRequest := ⟨"POST", "/roles", []⟩

/-- `roleService.deleteRole` request — with nonce/timestamp. -/
def roleService_deleteRole (name nonce : String) (nowMs : ℕ) : ServiceRequest :=
  ⟨"DELETE", "/roles/" ++ name, nonceTimestampParams nonce nowMs⟩

/-- `roleService.addRoleACL` request — no params. -/
def roleService_addRoleACL (roleName : String) : ServiceRequest :=
  ⟨"POST", "/roles/" ++ roleName ++ "/acls", []⟩

/-- `roleService.removeRoleACL` request —
`params: { acl_type: aclType, topic, nonce, timestamp }`. -/
def roleService_removeRoleACL (roleName aclType topic nonce : String) (nowMs : ℕ) :
    ServiceRequest :=
  ⟨"DELETE", "/roles/" ++ roleName ++ "/acls",
   [("acl_type", aclType), ("topic", topic)] ++ nonceTimestampParams nonce nowMs⟩

/-- `groupService.getGroups` request (nonce/timestamp revision). -/
def groupService_getGroups (nonce : String) (nowMs : ℕ) : ServiceRequest :=
  ⟨"GET", "/groups", nonceTimestampParams nonce nowMs⟩

/-- `groupService.createGroup` request (nonce/timestamp revision). -/
def groupService_createGroup (nonce : String) (nowMs : ℕ) : ServiceRequest :=
  ⟨"POST", "/groups", nonceTimestampParams nonce nowMs⟩

/-- `groupService.deleteGroup` request (nonce/timestamp revision). -/
def groupService_deleteGroup (name nonce : String) (nowMs : ℕ) : ServiceRequest :=
  ⟨"DELETE", "/groups/" ++ name, nonceTimestampParams nonce nowMs⟩

/-- `groupService.addRoleToGroup` request (nonce/timestamp revision). -/
def groupService_addRoleToGroup (groupName nonce : String) (nowMs : ℕ) : ServiceRequest :=
  ⟨"POST", "/groups/" ++ groupName ++ "/roles", nonceTimestampParams nonce nowMs⟩

/-- `groupService.addClientToGroup` request (nonce/timestamp revision). -/
def groupService_addClientToGroup (groupName nonce : String) (nowMs : ℕ) : ServiceRequest :=
  ⟨"POST", "/groups/" ++ groupName ++ "/clients", nonceTimestampParams nonce nowMs⟩

/-- `groupService.removeClientFromGroup` request (nonce/timestamp revision). -/
def groupService_removeClientFromGroup (groupName username nonce : String) (nowMs : ℕ) :
    ServiceRequest :=
  ⟨"DELETE", "/groups/" ++ groupName ++ "/clients/" ++ username,
   nonceTimestampParams nonce nowMs⟩

/-- `groupService.removeRoleFromGroup` request (nonce/timestamp revision). -/
def groupService_removeRoleFromGroup (groupName roleName nonce : String) (nowMs : ℕ) :
    ServiceRequest :=
  ⟨"DELETE", "/groups/" ++ groupName ++ "/roles/" ++ roleName,
   nonceTimestampParams nonce nowMs⟩

/-- `groupService.createGroup` from the later Firebase-token revision of
`groupService.js`: only an `Authorization` header, no query params. -/
def groupServiceFb_createGroup (name : String) : ServiceRequest := ⟨"POST", "/groups", []⟩

/-- A request carries the anti-replay pair: a `nonce` parameter and a
`timestamp` parameter equal to the Unix time in whole seconds. -/
def hasNonceTimestamp (r : ServiceRequest) (nonce : String) (nowMs : ℕ) : Prop :=
  ("nonce", nonce) ∈ r.params ∧ ("timestamp", toString (nowMs / 1000)) ∈ r.params

/-! ## Definitions: shared Axios instance (api.js) -/

/-- `validateStatus: status => status >= 200 && status < 500` from the shared
Axios instance: a received response *resolves* the request promise iff this
accepts its status; otherwise Axios rejects with `error.response` set. -/
def validateStatus (status : ℕ) : Bool := 200 ≤ status && status < 500

/-- What the caller of the shared instance observes for one logical request:
the final result (resolved or rejected status), how many times the request
was sent on the wire, and whether a forced token refresh happened. -/
structure ApiCallTrace where
  result : Except ℕ ℕ
  sends : ℕ
  refreshed : Bool
  deriving Repr

/-- One logical request through the shared instance (`api.js`), for a
request whose first send yields HTTP status `s₁` and whose retry — if one
happens — yields `s₂`.  Axios resolves when `validateStatus` accepts the
status (the success interceptor passes the response through); otherwise the
response interceptor's error handler runs: on `error.response?.status ===
401` with `_retry` unset it forces a token refresh, re-sends once, and a
second rejection propagates (`_retry` now set). -/
def apiRequest (s₁ s₂ : ℕ) : ApiCallTrace :=
  if validateStatus s₁ then
    { result := .ok s₁, sends := 1, refreshed := false }
  else if s₁ = 401 then
    if validateStatus s₂ then { result := .ok s₂, sends := 2, refreshed := true }
    else { result := .error s₂, sends := 2, refreshed := true }
  else
    { result := .error s₁, sends := 1, refreshed := false }

/-! ## Definitions: auth-admin API (auth-api.js)

The Express process backed by Firebase Admin.  Strings are `JsStr`; the
caller is the uid of the verified Firebase ID token (`none` = missing or
invalid token, rejected 401 by `verifyFirebaseToken`).  `auth-api.js`
contains two revisions; they differ in whether `DELETE /api/auth/users/:uid`
carries the `requireAdmin` middleware, so both delete handlers are
embedded. -/

/-- A Firebase user record: uid, the `role` custom claim, display name. -/
structure UserRec where
  uid : JsStr
  role : Option JsStr
  displayName : Option JsStr
  deriving Repr, DecidableEq

/-- The Firebase Auth user store. -/
abbrev UserDb := List UserRec

/-- `admin.auth().getUser(uid)`; `none` models the thrown user-not-found
error. -/
def getUser (db : UserDb) (uid : JsStr) : Option UserRec :=
  db.find? (fun u => u.uid == uid)

/-- Effect of a successful `admin.auth().deleteUser(uid)`. -/
def deleteUserRec (db : UserDb) (uid : JsStr) : UserDb :=
  db.filter (fun u => u.uid != uid)

/-- Effect of `admin.auth().setCustomUserClaims(uid, {..., role})` (only the
`role` claim is modelled). -/
def setRole (db : UserDb) (uid : JsStr) (r : JsStr) : UserDb :=
  db.map (fun u => if u.uid == uid then { u with role := some r } else u)

/-- Effect of `admin.auth().updateUser(uid, { displayName })`. -/
def setDisplayName (db : UserDb) (uid dn : JsStr) : UserDb :=
  db.map (fun u => if u.uid == uid then { u with displayName := some dn } else u)

/-- `requireAdmin` middleware: fetch the caller's fresh record (an exception
is the 500 path) and require `customClaims.role === 'admin'` (else 403).
`none` means the middleware calls `next()`. -/
def requireAdmin (db : UserDb) (callerUid : JsStr) : Option ℕ :=
  match getUser db callerUid with
  | none => some 500
  | some u => if u.role == some "admin".data then none else some 403

/-- An endpoint outcome: HTTP status and the resulting user store. -/
structure ApiResult where
  status : ℕ
  db : UserDb
  deriving Repr, DecidableEq

/-- The `role` field of a `PUT /api/auth/users/:uid` body: absent
(`undefined`), `null`, or a string. -/
inductive RoleField where
  | absent
  | rnull
  | rstr (s : JsStr)
  deriving Repr, DecidableEq

/-- `role !== undefined && !['admin','moderator','user',null,''].includes(role)`
— `true` here means the role value passes the validation. -/
def roleAllowed : RoleField → Bool
  | .absent => true
  | .rnull => true
  | .rstr s => s == "admin".data || s == "moderator".data || s == "user".data || s == []

/-- `role && role !== 'admin'`: the role is a truthy value other than the
string `'admin'`. -/
def roleTruthyNotAdmin : RoleField → Bool
  | .rstr s => !s.isEmpty && !(s == "admin".data)
  | _ => false

/-- `if (role !== undefined) { ... role && role.trim() ? role.trim() : 'user' }`:
the role value written to the custom claims, or `none` when the field is
absent and the claims stay untouched. -/
def effectiveRole : RoleField → Option JsStr
  | .absent => none
  | .rnull => some "user".data
  | .rstr s => some (if (jsTrim s).isEmpty then "user".data else jsTrim s)

/-- Body of `PUT /api/auth/users/:uid` (photoURL/disabled behave like
displayName and are omitted). -/
structure PutBody where
  displayName : Option JsStr
  role : RoleField
  deriving Repr, DecidableEq

/-- `GET /api/auth/users` — `verifyFirebaseToken`, `requireAdmin`, then a
read-only `listUsers`. -/
def handleListUsers (db : UserDb) (caller : Option JsStr) : ApiResult :=
  match caller with
  | none => ⟨401, db⟩
  | some c =>
    match requireAdmin db c with
    | some st => ⟨st, db⟩
    | none => ⟨200, db⟩

/-- `PUT /api/auth/users/:uid` (first revision, the one preserving existing
claims): token check, `requireAdmin`, role validation, self-demotion guard,
then profile update and claims update. -/
def handleUpdateUser (db : UserDb) (caller : Option JsStr) (uid : JsStr)
    (body : PutBody) : ApiResult :=
  match caller with
  | none => ⟨401, db⟩
  | some c =>
    match requireAdmin db c with
    | some st => ⟨st, db⟩
    | none =>
      if !roleAllowed body.role then ⟨400, db⟩
      else if uid == c && roleTruthyNotAdmin body.role then ⟨400, db⟩
      else
        match getUser db uid with
        | none => ⟨500, db⟩
        | some _ =>
          let db1 := match body.displayName with
            | some dn => setDisplayName db uid dn
            | none => db
          let db2 := match effectiveRole body.role with
            | some r => setRole db1 uid r
            | none => db1
          ⟨200, db2⟩

/-- `DELETE /api/auth/users/:uid`, first revision: only
`verifyFirebaseToken` — no `requireAdmin` middleware (although the comment
above the route says "Admin only"). -/
def handleDeleteUserV1 (db : UserDb) (caller : Option JsStr) (uid : JsStr) : ApiResult :=
  match caller with
  | none => ⟨401, db⟩
  | some c =>
    if uid == c then ⟨400, db⟩
    else
      match getUser db uid with
      | none => ⟨500, db⟩
      | some _ => ⟨200, deleteUserRec db uid⟩

/-- `DELETE /api/auth/users/:uid`, second revision: `verifyFirebaseToken`
and `requireAdmin`. -/
def handleDeleteUserV2 (db : UserDb) (caller : Option JsStr) (uid : JsStr) : ApiResult :=
  match caller with
  | none => ⟨401, db⟩
  | some c =>
    match requireAdmin db c with
    | some st => ⟨st, db⟩
    | none =>
      if uid == c then ⟨400, db⟩
      else
        match getUser db uid with
        | none => ⟨500, db⟩
        | some _ => ⟨200, deleteUserRec db uid⟩

/-- `DELETE /api/auth/reset` — `requireAdmin`, then delete every user except
the caller. -/
def handleResetUsers (db : UserDb) (caller : Option JsStr) : ApiResult :=
  match caller with
  | none => ⟨401, db⟩
  | some c =>
    match requireAdmin db c with
    | some st => ⟨st, db⟩
    | none => ⟨200, db.filter (fun u => u.uid == c)⟩

/-! ## Theorems -/

/-! ### C5: `calculateTrend` -/

/-- C5 — counterexample.  The claim says the returned value "is positive for
an increase", but `calculateTrend(1000, 1001)` is an increase and returns 0
(`Math.round` maps relative changes under 0.5% to 0). -/
theorem C5_counterexample :
    (1000 : ℚ) < 1001 ∧ calculateTrend 1000 1001 = 0 := by
  refine ⟨by norm_num, ?_⟩
  simp only [calculateTrend, jsRound]
  norm_num [Int.floor_eq_iff]

/-- C5 — amended claim: `calculateTrend previous current` returns 0 when
`previous = 0` and otherwise `Math.round` of the signed percentage change
`((current - previous) / previous) * 100`; for `previous > 0` this rounded
value is nonnegative for an increase and nonpositive for a decrease (it can
be 0 for changes of magnitude below 0.5%, and for negative `previous` the
sign is inverted). -/
theorem calculateTrend_spec (p c : ℚ) (hp : p ≠ 0) :
    calculateTrend 0 c = 0 ∧
    calculateTrend p c = ⌊(c - p) / p * 100 + 1/2⌋ ∧
    (0 < p → p ≤ c → 0 ≤ calculateTrend p c) ∧
    (0 < p → c ≤ p → calculateTrend p c ≤ 0) := by
  have hform : calculateTrend p c = ⌊(c - p) / p * 100 + 1/2⌋ := by
    simp [calculateTrend, jsRound, hp]
  refine ⟨by simp [calculateTrend], hform, ?_, ?_⟩
  · intro hp' hc
    rw [hform]
    have hx : 0 ≤ (c - p) / p * 100 :=
      mul_nonneg (div_nonneg (sub_nonneg.mpr hc) hp'.le) (by norm_num)
    have : (0 : ℚ) ≤ (c - p) / p * 100 + 1/2 := by linarith
    exact_mod_cast Int.le_floor.mpr (by exact_mod_cast this)
  · intro hp' hc
    rw [hform]
    have hx : (c - p) / p * 100 ≤ 0 := by
      have h1 : (c - p) / p ≤ 0 :=
        div_nonpos_iff.mpr (Or.inr ⟨sub_nonpos.mpr hc, hp'.le⟩)
      linarith
    have h2 : (c - p) / p * 100 + 1/2 ≤ (1 : ℚ)/2 := by linarith
    have h3 : ⌊(c - p) / p * 100 + 1/2⌋ ≤ ⌊(1 : ℚ)/2⌋ := Int.floor_mono h2
    have h4 : ⌊(1 : ℚ)/2⌋ = 0 := by norm_num [Int.floor_eq_iff]
    omega

/-- C5 — witness: the amended theorem applied at `previous = 100`,
`current = 150`. -/
theorem C5_witness :
    calculateTrend 100 150 = ⌊((150 : ℚ) - 100) / 100 * 100 + 1/2⌋ ∧
    0 ≤ calculateTrend 100 150 := by
  obtain ⟨-, h2, h3, -⟩ := calculateTrend_spec 100 150 (by norm_num)
  exact ⟨h2, h3 (by norm_num) (by norm_num)⟩

/-! ### C6: `validateClientData` -/

theorem jsTrim_nil : jsTrim [] = [] := rfl

theorem usernameRequiredCond_iff (d : ClientData) :
    usernameRequiredCond d = true ↔
      (d.username = none ∨ ∃ u, d.username = some u ∧ jsTrim u = []) := by
  cases hu : d.username with
  | none => simp [usernameRequiredCond, hu]
  | some u =>
    cases u with
    | nil => simp [usernameRequiredCond, hu, jsTrim_nil]
    | cons c cs => simp [usernameRequiredCond, hu, List.isEmpty_iff]

theorem usernameLengthCond_iff (d : ClientData) :
    usernameLengthCond d = true ↔
      (∃ u, d.username = some u ∧ u ≠ [] ∧ u.length < 3) := by
  cases hu : d.username with
  | none => simp [usernameLengthCond, hu]
  | some u => simp [usernameLengthCond, hu, List.isEmpty_iff]

theorem passwordCond_iff (d : ClientData) :
    passwordCond d = true ↔
      (d.password = none ∨ ∃ pw, d.password = some pw ∧ pw.length < 6) := by
  cases hp : d.password with
  | none => simp [passwordCond, hp]
  | some pw =>
    cases pw with
    | nil => simp [passwordCond, hp]
    | cons c cs => simp [passwordCond, hp, List.isEmpty_iff]

theorem usernameCharsCond_iff (d : ClientData) :
    usernameCharsCond d = true ↔
      (∃ u, d.username = some u ∧ u ≠ [] ∧ ∃ c ∈ u, validUsernameChar c = false) := by
  cases hu : d.username with
  | none => simp [usernameCharsCond, hu]
  | some u => simp [usernameCharsCond, hu, List.isEmpty_iff, List.any_eq_true]

theorem validateClientData_isValid_eq (d : ClientData) :
    (validateClientData d).isValid =
      (!usernameRequiredCond d && !usernameLengthCond d &&
       !passwordCond d && !usernameCharsCond d) := by
  by_cases h1 : usernameRequiredCond d <;> by_cases h2 : usernameLengthCond d <;>
    by_cases h3 : passwordCond d <;> by_cases h4 : usernameCharsCond d <;>
    simp [validateClientData, h1, h2, h3, h4]

/-- C6: `validateClientData` pushes the matching error whenever the username
is missing/blank, shorter than 3 characters, or contains a character outside
`[a-zA-Z0-9_-]`, or the password is missing or shorter than 6 characters;
`isValid` is true with an empty error list exactly when none of these
conditions hold. -/
theorem validateClientData_spec (d : ClientData) :
    ((validateClientData d).isValid = true ↔ (validateClientData d).errors = []) ∧
    ((d.username = none ∨ ∃ u, d.username = some u ∧ jsTrim u = []) →
       "Username is required" ∈ (validateClientData d).errors) ∧
    ((∃ u, d.username = some u ∧ u.length < 3) →
       "Username is required" ∈ (validateClientData d).errors ∨
       "Username must be at least 3 characters long" ∈ (validateClientData d).errors) ∧
    ((∃ u, d.username = some u ∧ ∃ c ∈ u, validUsernameChar c = false) →
       "Username is required" ∈ (validateClientData d).errors ∨
       "Username can only contain letters, numbers, underscores, and hyphens" ∈
         (validateClientData d).errors) ∧
    ((d.password = none ∨ ∃ pw, d.password = some pw ∧ pw.length < 6) →
       "Password must be at least 6 characters long" ∈ (validateClientData d).errors) ∧
    ((validateClientData d).isValid = true ↔
       (∃ u, d.username = some u ∧ jsTrim u ≠ [] ∧ 3 ≤ u.length ∧
          ∀ c ∈ u, validUsernameChar c = true) ∧
       (∃ pw, d.password = some pw ∧ 6 ≤ pw.length)) := by
  have herr : (validateClientData d).errors =
      (if usernameRequiredCond d then ["Username is required"] else []) ++
      (if usernameLengthCond d then ["Username must be at least 3 characters long"] else []) ++
      (if passwordCond d then ["Password must be at least 6 characters long"] else []) ++
      (if usernameCharsCond d then
        ["Username can only contain letters, numbers, underscores, and hyphens"] else []) := rfl
  refine ⟨?_, ?_, ?_, ?_, ?_, ?_⟩
  · rw [validateClientData_isValid_eq, herr]
    by_cases h1 : usernameRequiredCond d <;> by_cases h2 : usernameLengthCond d <;>
      by_cases h3 : passwordCond d <;> by_cases h4 : usernameCharsCond d <;>
      simp [h1, h2, h3, h4]
  · intro h
    have : usernameRequiredCond d = true := (usernameRequiredCond_iff d).mpr h
    rw [herr]; simp [this]
  · rintro ⟨u, hu, hlen⟩
    by_cases hnil : u = []
    · left
      have : usernameRequiredCond d = true :=
        (usernameRequiredCond_iff d).mpr (Or.inr ⟨u, hu, by simp [hnil, jsTrim_nil]⟩)
      rw [herr]; simp [this]
    · right
      have : usernameLengthCond d = true :=
        (usernameLengthCond_iff d).mpr ⟨u, hu, hnil, hlen⟩
      rw [herr]
      by_cases h1 : usernameRequiredCond d <;> simp [h1, this]
  · rintro ⟨u, hu, c, hc, hbad⟩
    by_cases hnil : u = []
    · left
      have : usernameRequiredCond d = true :=
        (usernameRequiredCond_iff d).mpr (Or.inr ⟨u, hu, by simp [hnil, jsTrim_nil]⟩)
      rw [herr]; simp [this]
    · right
      have : usernameCharsCond d = true :=
        (usernameCharsCond_iff d).mpr ⟨u, hu, hnil, c, hc, hbad⟩
      rw [herr]; simp [this]
  · intro h
    have : passwordCond d = true := (passwordCond_iff d).mpr h
    rw [herr]
    by_cases h1 : usernameRequiredCond d <;> by_cases h2 : usernameLengthCond d <;>
      simp [h1, h2, this]
  · rw [validateClientData_isValid_eq]
    simp only [Bool.and_eq_true, Bool.not_eq_true']
    rw [← Bool.not_eq_true (usernameRequiredCond d),
        ← Bool.not_eq_true (usernameLengthCond d),
        ← Bool.not_eq_true (passwordCond d),
        ← Bool.not_eq_true (usernameCharsCond d)]
    rw [usernameRequiredCond_iff, usernameLengthCond_iff, passwordCond_iff,
        usernameCharsCond_iff]
    constructor
    · rintro ⟨⟨⟨hreq, hlen⟩, hpw⟩, hchars⟩
      push_neg at hreq
      obtain ⟨hnone, hblank⟩ := hreq
      cases hu : d.username with
      | none => exact absurd hu hnone
      | some u =>
        have hune : u ≠ [] := by
          intro h; exact hblank u hu (by simp [h, jsTrim_nil])
        refine ⟨⟨u, rfl, hblank u hu, ?_, ?_⟩, ?_⟩
        · by_contra hlt
          exact hlen ⟨u, hu, hune, by omega⟩
        · intro c hc
          by_contra hbad
          exact hchars ⟨u, hu, hune, c, hc, by simpa using hbad⟩
        · cases hp : d.password with
          | none => exact absurd (Or.inl hp) hpw
          | some pw =>
            refine ⟨pw, rfl, ?_⟩
            by_contra hlt
            exact hpw (Or.inr ⟨pw, hp, by omega⟩)
    · rintro ⟨⟨u, hu, hblank, hlen, hchars⟩, pw, hp, hpwlen⟩
      refine ⟨⟨⟨?_, ?_⟩, ?_⟩, ?_⟩
      · push_neg
        refine ⟨by simp [hu], ?_⟩
        rintro u' hu'
        rw [hu] at hu'; injection hu' with h; subst h
        exact hblank
      · rintro ⟨u', hu', -, hlt⟩
        rw [hu] at hu'; injection hu' with h; subst h
        omega
      · rintro (h | ⟨pw', hp', hlt⟩)
        · rw [hp] at h; exact Option.noConfusion h
        · rw [hp] at hp'; injection hp' with h; subst h
          omega
      · rintro ⟨u', hu', -, c, hc, hbad⟩
        rw [hu] at hu'; injection hu' with h; subst h
        rw [hchars c hc] at hbad
        exact Bool.noConfusion hbad

/-- C6 — witness: the theorem applied to a concrete valid input and the
required-error case of a concrete invalid input. -/
theorem C6_witness :
    (validateClientData ⟨some "abc".data, some "123456".data⟩).isValid = true ∧
    "Username is required" ∈ (validateClientData ⟨none, some "123456".data⟩).errors := by
  constructor
  · exact (validateClientData_spec ⟨some "abc".data, some "123456".data⟩).2.2.2.2.2.mpr
      ⟨⟨"abc".data, rfl, by decide, by decide, by decide⟩, ⟨"123456".data, rfl, by decide⟩⟩
  · exact (validateClientData_spec ⟨none, some "123456".data⟩).2.1 (Or.inl rfl)

/-! ### C7: `formatBytes` -/

/-- C7: `formatBytes 0` is the literal `'0 B'`; for every byte count in
`[1024^i, 1024^(i+1))` with `i < 5` the result is the count divided by
`1024^i`, rounded to at most two decimal places, followed by the `i`-th
unit suffix of `['B','KB','MB','GB','TB']` (the index being
`floor(log bytes / log 1024)`). -/
theorem formatBytes_spec (bytes i : ℕ) (hi : i < 5)
    (h1 : 1024 ^ i ≤ bytes) (h2 : bytes < 1024 ^ (i + 1)) :
    formatBytes 0 = .zero ∧
    ∃ u, byteSizes[i]? = some u ∧
      formatBytes bytes = .scaled (jsToFixed2 ((bytes : ℚ) / 1024 ^ i)) u := by
  have hb0 : bytes ≠ 0 := by
    have : 1 ≤ 1024 ^ i := Nat.one_le_pow _ _ (by norm_num)
    omega
  have hlog : Nat.log 1024 bytes = i := Nat.log_eq_of_pow_le_of_lt_pow h1 h2
  refine ⟨rfl, byteSizes.getD i "undefined", ?_, ?_⟩
  · interval_cases i <;> rfl
  · simp [formatBytes, hb0, hlog]

/-- C7 — witness: 2048 bytes is in `[1024^1, 1024^2)` and formats with the
`KB` suffix. -/
theorem C7_witness :
    formatBytes 0 = .zero ∧
    ∃ u, byteSizes[1]? = some u ∧
      formatBytes 2048 = .scaled (jsToFixed2 ((2048 : ℚ) / 1024 ^ 1)) u :=
  formatBytes_spec 2048 1 (by norm_num) (by norm_num) (by norm_num)

/-! ### C3: `handleApiCall` -/

/-- C3: a failed `handleApiCall` operation always rethrows an `Error` whose
message is the generic server message for status 500, the authentication
message for 401/403, and — for an exception as thrown by the underlying
call, which has no `userMessage` property — the error's own message for any
other failure; a successful call returns `response.data` unwrapped. -/
theorem handleApiCall_spec (operation : String) (e : ApiError) :
    (∀ d : Unit, handleApiCall operation (.success d) = .ok d) ∧
    (∃ msg, @handleApiCall Unit operation (.failure e) = .error msg) ∧
    (e.status = some 500 →
      @handleApiCall Unit operation (.failure e) =
        .error ("Server error during " ++ operation ++ ". Please check server logs.")) ∧
    ((e.status = some 401 ∨ e.status = some 403) →
      @handleApiCall Unit operation (.failure e) =
        .error "Authentication failed. Please check your login credentials.") ∧
    (e.userMessage = none → e.status ≠ some 500 → e.status ≠ some 401 → e.status ≠ some 403 →
      @handleApiCall Unit operation (.failure e) = .error e.message) := by
  refine ⟨fun d => rfl, ⟨_, rfl⟩, ?_, ?_, ?_⟩
  · intro h
    simp [handleApiCall, h]
  · rintro (h | h) <;> simp [handleApiCall, h]
  · intro h0 h1 h2 h3
    simp only [handleApiCall, h0]
    rw [if_neg h1, if_neg]
    rintro (h | h)
    · exact h2 h
    · exact h3 h

/-- C3 — witness: the theorem applied to a 500 failure, a 403 failure and a
404 failure of the `getClients` operation. -/
theorem C3_witness :
    @handleApiCall Unit "getClients" (.failure ⟨"boom", none, some 500⟩) =
      .error ("Server error during " ++ "getClients" ++ ". Please check server logs.") ∧
    @handleApiCall Unit "getClients" (.failure ⟨"boom", none, some 403⟩) =
      .error "Authentication failed. Please check your login credentials." ∧
    @handleApiCall Unit "getClients" (.failure ⟨"boom", none, some 404⟩) =
      .error "boom" := by
  refine ⟨?_, ?_, ?_⟩
  · exact (handleApiCall_spec "getClients" ⟨"boom", none, some 500⟩).2.2.1 rfl
  · exact (handleApiCall_spec "getClients" ⟨"boom", none, some 403⟩).2.2.2.1 (Or.inr rfl)
  · exact (handleApiCall_spec "getClients" ⟨"boom", none, some 404⟩).2.2.2.2 rfl
      (by decide) (by decide) (by decide)

/-! ### C4: list-response parsing -/

/-- C4 — counterexample: `mqttService.getClients` does *not* handle array or
malformed payloads: `.split('\n')` on a non-string throws a `TypeError`
(modelled as `none`) instead of returning an array of objects. -/
theorem C4_counterexample :
    mqttGetClients (ListPayload.arr [ListItem.str ['a']]) = none ∧
    mqttGetClients ListPayload.missing = none := ⟨rfl, rfl⟩

/-- C4 — amended claim: `clientService.getClients` and `roleService.getRoles`
return, without throwing, one entry per non-empty line of a string payload
(names taken from the lines, trimmed only in clientService), one entry per
element of an array payload (bare strings wrapped), and `[]` for any other
malformed payload; `mqttService.getClients`, however, assumes a string
payload — it parses strings the same way but throws on every non-string
payload. -/
theorem listParsing_spec (s : JsStr) (items : List ListItem) (dataValue : ListPayload)
    (hs : s ≠ []) :
    clientGetClients .missing = [] ∧
    clientGetClients .malformed = [] ∧
    (∀ s', clientGetClients (.str s') =
      ((jsSplitNewline s').filter (fun l => !l.isEmpty)).map (fun l => ⟨jsTrim l⟩)) ∧
    clientGetClients (.arr items) = items.map itemEntry ∧
    (clientGetClients (.arr items)).length = items.length ∧
    roleGetRoles .missing .malformed = [] ∧
    roleGetRoles .malformed dataValue = [] ∧
    roleGetRoles (.str s) dataValue =
      ((jsSplitNewline s).filter (fun l => !l.isEmpty)).map (fun l => ⟨l⟩) ∧
    roleGetRoles (.arr items) dataValue = items.map itemEntry ∧
    mqttGetClients (.str s) =
      some (((jsSplitNewline s).filter (fun l => !l.isEmpty)).map (fun l => ⟨l⟩)) ∧
    (∀ p : ListPayload, (∀ s', p ≠ .str s') → mqttGetClients p = none) := by
  have hsE : s.isEmpty = false := by simp [List.isEmpty_iff, hs]
  refine ⟨rfl, rfl, ?_, rfl, by simp [clientGetClients], rfl, ?_, ?_, ?_, rfl, ?_⟩
  · intro s'
    cases s' with
    | nil => rfl
    | cons c cs => simp [clientGetClients]
  · cases dataValue <;> rfl
  · simp [roleGetRoles, truthyPayload, hsE]
  · cases dataValue <;> rfl
  · intro p hp
    cases p with
    | str s' => exact absurd rfl (hp s')
    | missing => rfl
    | arr items' => rfl
    | malformed => rfl

/-- C4 — witness: the amended theorem applied at the string payload
`'admin\nuser'`, a two-element array payload, and an object `response.data`. -/
theorem C4_witness :
    clientGetClients (.str "admin\nuser".data) = [⟨"admin".data⟩, ⟨"user".data⟩] ∧
    roleGetRoles (.str "admin\nuser".data) .malformed = [⟨"admin".data⟩, ⟨"user".data⟩] ∧
    roleGetRoles .missing .malformed = [] := by
  obtain ⟨-, -, hstr, -, -, hmiss, -, hrole, -, -, -⟩ :=
    listParsing_spec "admin\nuser".data [] ListPayload.malformed (by decide)
  refine ⟨?_, ?_, hmiss⟩
  · rw [hstr "admin\nuser".data]; decide
  · rw [hrole]; decide

/-! ### C8: byte-stats cutoff filters -/

theorem filterDataByTimeRange_cons (cutoff : Int) (t : ParsedTime) (ts : List ParsedTime)
    (b : Int) (br : List Int) (v : Int) (bs : List Int) :
    filterDataByTimeRange cutoff (t :: ts) (b :: br) (v :: bs) =
      (if timeAtOrAfter cutoff t then
        ((filterDataByTimeRange cutoff ts br bs).1.cons t,
         (filterDataByTimeRange cutoff ts br bs).2.1.cons b,
         (filterDataByTimeRange cutoff ts br bs).2.2.cons v)
      else filterDataByTimeRange cutoff ts br bs) := by
  simp only [filterDataByTimeRange, List.length_cons, List.range_succ_eq_map,
    List.filter_cons, List.getD_cons_zero, List.filter_map, List.map_map]
  by_cases h : timeAtOrAfter cutoff t <;>
    simp [h, Function.comp_def, List.getD_cons_succ]

theorem processedByteStats_eq_spec (cutoff : Int) :
    ∀ (ts : List ParsedTime) (br bs : List Int),
      br.length = ts.length → bs.length = ts.length →
      processedByteStats cutoff ts br bs = cutoffFilterSpec cutoff ts br bs := by
  intro ts
  induction ts with
  | nil =>
    intro br bs h1 h2
    cases br <;> cases bs <;> simp_all [processedByteStats, cutoffFilterSpec, keptEntries]
  | cons t ts ih =>
    intro br bs h1 h2
    cases br with
    | nil => simp at h1
    | cons b br' =>
      cases bs with
      | nil => simp at h2
      | cons v bs' =>
        have ih' := ih br' bs' (by simpa using h1) (by simpa using h2)
        simp only [processedByteStats, ih', cutoffFilterSpec, keptEntries,
          List.zip_cons_cons, List.filter_cons]
        by_cases h : timeAtOrAfter cutoff t <;> simp [h]

theorem filterDataByTimeRange_eq_spec (cutoff : Int) :
    ∀ (ts : List ParsedTime) (br bs : List Int),
      br.length = ts.length → bs.length = ts.length →
      filterDataByTimeRange cutoff ts br bs = cutoffFilterSpec cutoff ts br bs := by
  intro ts
  induction ts with
  | nil =>
    intro br bs h1 h2
    cases br <;> cases bs <;>
      simp_all [filterDataByTimeRange, cutoffFilterSpec, keptEntries]
  | cons t ts ih =>
    intro br bs h1 h2
    cases br with
    | nil => simp at h1
    | cons b br' =>
      cases bs with
      | nil => simp at h2
      | cons v bs' =>
        have ih' := ih br' bs' (by simpa using h1) (by simpa using h2)
        rw [filterDataByTimeRange_cons, ih']
        simp only [cutoffFilterSpec, keptEntries, List.zip_cons_cons, List.filter_cons]
        by_cases h : timeAtOrAfter cutoff t <;> simp [h]

/-- C8: on parallel arrays (equal lengths), both cutoff filters return
exactly the entries whose timestamp parses to a time at or after the cutoff,
in their original order, and the three result arrays have equal lengths. -/
theorem byteStatsFilters_spec (cutoff : Int) (ts : List ParsedTime) (br bs : List Int)
    (h1 : br.length = ts.length) (h2 : bs.length = ts.length) :
    processedByteStats cutoff ts br bs = cutoffFilterSpec cutoff ts br bs ∧
    filterDataByTimeRange cutoff ts br bs = cutoffFilterSpec cutoff ts br bs ∧
    (processedByteStats cutoff ts br bs).1.length =
      (processedByteStats cutoff ts br bs).2.1.length ∧
    (processedByteStats cutoff ts br bs).1.length =
      (processedByteStats cutoff ts br bs).2.2.length ∧
    (filterDataByTimeRange cutoff ts br bs).1.length =
      (filterDataByTimeRange cutoff ts br bs).2.1.length ∧
    (filterDataByTimeRange cutoff ts br bs).1.length =
      (filterDataByTimeRange cutoff ts br bs).2.2.length := by
  have hp := processedByteStats_eq_spec cutoff ts br bs h1 h2
  have hf := filterDataByTimeRange_eq_spec cutoff ts br bs h1 h2
  refine ⟨hp, hf, ?_, ?_, ?_, ?_⟩ <;> first
    | (rw [hp]; simp [cutoffFilterSpec])
    | (rw [hf]; simp [cutoffFilterSpec])

/-- C8 — witness: the theorem applied to a concrete four-point series with
one stale point and one unparseable timestamp. -/
theorem C8_witness :
    processedByteStats 100 [some 50, some 150, none, some 200] [1, 2, 3, 4] [5, 6, 7, 8] =
      cutoffFilterSpec 100 [some 50, some 150, none, some 200] [1, 2, 3, 4] [5, 6, 7, 8] ∧
    filterDataByTimeRange 100 [some 50, some 150, none, some 200] [1, 2, 3, 4] [5, 6, 7, 8] =
      cutoffFilterSpec 100 [some 50, some 150, none, some 200] [1, 2, 3, 4] [5, 6, 7, 8] ∧
    cutoffFilterSpec 100 [some 50, some 150, none, some 200] [1, 2, 3, 4] [5, 6, 7, 8] =
      ([some 150, some 200], [2, 4], [6, 8]) := by
  obtain ⟨hp, hf, -⟩ :=
    byteStatsFilters_spec 100 [some 50, some 150, none, some 200] [1, 2, 3, 4] [5, 6, 7, 8]
      (by decide) (by decide)
  exact ⟨hp, hf, by decide⟩

/-! ### C9: nonce/timestamp query parameters -/

/-- C9 — counterexample: `roleService.createRole` (one of the claim's own
cited lines) attaches no query parameters at all; neither do
`roleService.getRoles` and the Firebase-token revision of
`groupService.createGroup`. -/
theorem C9_counterexample :
    (roleService_createRole "bridge").params = [] ∧
    roleService_getRoles.params = [] ∧
    (groupServiceFb_createGroup "ops").params = [] := ⟨rfl, rfl, rfl⟩

/-- C9 — amended claim: every async function of `clientService`, every
function of the nonce/timestamp revision of `groupService`, and
`roleService.deleteRole`/`removeRoleACL` attach `nonce` and `timestamp`
query parameters with `timestamp = Math.floor(Date.now() / 1000)` and return
`response.data`; but `roleService.getRoles`, `getRole`, `createRole`,
`addRoleACL` and the Firebase-token `groupService` revision attach no such
parameters. -/
theorem serviceNonceTimestamp_spec
    (username roleName groupName aclType topic nonce : String) (nowMs : ℕ) :
    hasNonceTimestamp (clientService_getClients nonce nowMs) nonce nowMs ∧
    hasNonceTimestamp (clientService_getClient username nonce nowMs) nonce nowMs ∧
    hasNonceTimestamp (clientService_createClient nonce nowMs) nonce nowMs ∧
    hasNonceTimestamp (clientService_updateClient username nonce nowMs) nonce nowMs ∧
    hasNonceTimestamp (clientService_deleteClient username nonce nowMs) nonce nowMs ∧
    hasNonceTimestamp (clientService_enableClient username nonce nowMs) nonce nowMs ∧
    hasNonceTimestamp (clientService_disableClient username nonce nowMs) nonce nowMs ∧
    hasNonceTimestamp (clientService_addRoleToClient username nonce nowMs) nonce nowMs ∧
    hasNonceTimestamp
      (clientService_removeRoleFromClient username roleName nonce nowMs) nonce nowMs ∧
    hasNonceTimestamp (clientService_addClientToGroup groupName nonce nowMs) nonce nowMs ∧
    hasNonceTimestamp
      (clientService_removeClientFromGroup groupName username nonce nowMs) nonce nowMs ∧
    hasNonceTimestamp (clientService_testConnection nonce nowMs) nonce nowMs ∧
    hasNonceTimestamp (roleService_deleteRole roleName nonce nowMs) nonce nowMs ∧
    hasNonceTimestamp
      (roleService_removeRoleACL roleName aclType topic nonce nowMs) nonce nowMs ∧
    hasNonceTimestamp (groupService_getGroups nonce nowMs) nonce nowMs ∧
    hasNonceTimestamp (groupService_createGroup nonce nowMs) nonce nowMs ∧
    hasNonceTimestamp (groupService_deleteGroup groupName nonce nowMs) nonce nowMs ∧
    hasNonceTimestamp (groupService_addRoleToGroup groupName nonce nowMs) nonce nowMs ∧
    hasNonceTimestamp (groupService_addClientToGroup groupName nonce nowMs) nonce nowMs ∧
    hasNonceTimestamp
      (groupService_removeClientFromGroup groupName username nonce nowMs) nonce nowMs ∧
    hasNonceTimestamp
      (groupService_removeRoleFromGroup groupName roleName nonce nowMs) nonce nowMs ∧
    roleService_getRoles.params = [] ∧
    (roleService_getRole roleName).params = [] ∧
    (roleService_createRole roleName).params = [] ∧
    (roleService_addRoleACL roleName).params = [] := by
  simp [hasNonceTimestamp, nonceTimestampParams, getCurrentTimestamp,
    clientService_getClients, clientService_getClient, clientService_createClient,
    clientService_updateClient, clientService_deleteClient, clientService_enableClient,
    clientService_disableClient, clientService_addRoleToClient,
    clientService_removeRoleFromClient, clientService_addClientToGroup,
    clientService_removeClientFromGroup, clientService_testConnection,
    roleService_deleteRole, roleService_removeRoleACL, groupService_getGroups,
    groupService_createGroup, groupService_deleteGroup, groupService_addRoleToGroup,
    groupService_addClientToGroup, groupService_removeClientFromGroup,
    groupService_removeRoleFromGroup, roleService_getRoles, roleService_getRole,
    roleService_createRole, roleService_addRoleACL]

/-- C9 — witness: the amended theorem applied at a concrete client name,
nonce and clock reading. -/
theorem C9_witness :
    hasNonceTimestamp (clientService_deleteClient "dev1" "n0" 1700000000123)
      "n0" 1700000000123 ∧
    (roleService_createRole "bridge-role").params = [] := by
  obtain ⟨h1, h2, h3, h4, h5, h6, h7, h8, h9, h10, h11, h12, h13, h14, h15, h16,
    h17, h18, h19, h20, h21, h22, h23, h24, h25⟩ :=
    serviceNonceTimestamp_spec "dev1" "bridge-role" "g" "t" "topic" "n0" 1700000000123
  exact ⟨h5, h24⟩

/-! ### C2: 401 refresh-and-retry on the shared Axios instance -/

/-- C2 — the code at the claimed behaviour's input: a request whose response
has status 401 *resolves* as a success after one send with no token refresh,
because `validateStatus` accepts every status in `[200, 500)`; consequently
the error interceptor's 401 refresh-and-retry branch can never run (no
request is ever refreshed): the branch is dead code, contradicting the
claim and the interceptor's own comments. -/
theorem apiRequest_401_no_retry :
    (∀ s₂, apiRequest 401 s₂ = ⟨.ok 401, 1, false⟩) ∧
    (∀ s₁ s₂, (apiRequest s₁ s₂).refreshed = false) := by
  constructor
  · intro s₂; rfl
  · intro s₁ s₂
    unfold apiRequest
    by_cases h : validateStatus s₁ = true
    · simp [h]
    · have h401 : s₁ ≠ 401 := by
        intro e; subst e; exact h (by decide)
      simp [h, h401]

/-! ### C1: admin gate on the auth-admin user-management endpoints -/

/-- C1 — the code at the failing input: in the first revision of
`auth-api.js`, `DELETE /api/auth/users/:uid` has no `requireAdmin`
middleware, so a caller with a valid token whose `role` custom claim is
`'user'` (not `'admin'`) deletes another user and gets 200 — not the 403
with no action that the claim (and the route's own "Admin only" comment)
require.  The second revision's handler does enforce 403 and leaves the
store unchanged. -/
theorem deleteUserV1_nonadmin_deletes :
    handleDeleteUserV1
      [⟨"alice".data, some "user".data, none⟩, ⟨"bob".data, some "user".data, none⟩]
      (some "alice".data) "bob".data
      = ⟨200, [⟨"alice".data, some "user".data, none⟩]⟩ ∧
    handleDeleteUserV2
      [⟨"alice".data, some "user".data, none⟩, ⟨"bob".data, some "user".data, none⟩]
      (some "alice".data) "bob".data
      = ⟨403, [⟨"alice".data, some "user".data, none⟩,
               ⟨"bob".data, some "user".data, none⟩]⟩ ∧
    handleListUsers
      [⟨"alice".data, some "user".data, none⟩, ⟨"bob".data, some "user".data, none⟩]
      (some "alice".data)
      = ⟨403, [⟨"alice".data, some "user".data, none⟩,
               ⟨"bob".data, some "user".data, none⟩]⟩ := by
  refine ⟨by decide, by decide, by decide⟩

/-! ### C10: self-targeting destructive actions -/

/-- C10 — counterexample: an admin `PUT`ting their own uid with `role: ''`
passes the validation (`''` is in the allowed list) and bypasses the
self-demotion guard (`role && role !== 'admin'` is false for the falsy
`''`), so their own `role` claim is set to `'user'` with status 200 — a
destructive self-action the claim says is rejected with 400 and no state
change. -/
theorem C10_counterexample :
    handleUpdateUser [⟨"alice".data, some "admin".data, none⟩]
      (some "alice".data) "alice".data ⟨none, .rstr []⟩
      = ⟨200, [⟨"alice".data, some "user".data, none⟩]⟩ := by decide

/-- C10 — amended claim: for a caller who passes the admin gate,
`DELETE /api/auth/users/:uid` with the caller's own uid responds 400 and
deletes nothing (in both revisions, the first not even needing the admin
gate), and `PUT /api/auth/users/:uid` on the caller's own uid with a role
that is a *non-empty* string other than `'admin'` responds 400 and modifies
nothing; however a `null` or empty-string role on one's own account bypasses
the guard and demotes the caller to `'user'` with status 200. -/
theorem authSelfAction_spec (db : UserDb) (c : JsStr) (dn : Option JsStr) (s : JsStr)
    (hadmin : requireAdmin db c = none) (hs1 : s ≠ []) (hs2 : s ≠ "admin".data) :
    handleDeleteUserV1 db (some c) c = ⟨400, db⟩ ∧
    handleDeleteUserV2 db (some c) c = ⟨400, db⟩ ∧
    handleUpdateUser db (some c) c ⟨dn, .rstr s⟩ = ⟨400, db⟩ := by
  refine ⟨?_, ?_, ?_⟩
  · simp [handleDeleteUserV1]
  · simp [handleDeleteUserV2, hadmin]
  · have hguard : roleTruthyNotAdmin (.rstr s) = true := by
      simp [roleTruthyNotAdmin, List.isEmpty_iff, hs1, hs2]
    by_cases hall : roleAllowed (.rstr s) = true
    · simp [handleUpdateUser, hadmin, hall, hguard]
    · simp [handleUpdateUser, hadmin, Bool.not_eq_true _ ▸ hall]

/-- C10 — witness: the amended theorem applied to a one-admin store and the
role string `'user'`. -/
theorem C10_witness :
    handleDeleteUserV1 [⟨"alice".data, some "admin".data, none⟩]
      (some "alice".data) "alice".data = ⟨400, [⟨"alice".data, some "admin".data, none⟩]⟩ ∧
    handleDeleteUserV2 [⟨"alice".data, some "admin".data, none⟩]
      (some "alice".data) "alice".data = ⟨400, [⟨"alice".data, some "admin".data, none⟩]⟩ ∧
    handleUpdateUser [⟨"alice".data, some "admin".data, none⟩]
      (some "alice".data) "alice".data ⟨none, .rstr "user".data⟩
      = ⟨400, [⟨"alice".data, some "admin".data, none⟩]⟩ :=
  authSelfAction_spec [⟨"alice".data, some "admin".data, none⟩] "alice".data none
    "user".data (by decide) (by decide) (by decide)

end BunkerM
